import Mathlib

/-!
Shallow embedding of the two Discord loot-bot variants in
`Fun-Projects/Arc-Raiders`:

* `loot_bot.py` — the slash-command variant: the `/loot` handler `loot`
  and the `loot_autocomplete` helper over the static `LOOT_ITEMS` catalog;
* `python-arc-bot.py` — the text-command variant: the `on_message` handler.

JSON values are modelled by the inductive `Json`; Python `dict.get` with a
default is `lookupField`-plus-`getD` on objects and an `AttributeError` on
every other value, which each handler model maps to the branch the Python
exception machinery would take.  The webhook call is an oracle argument
(`WebhookOutcome`): either a transport error (a `requests.RequestException`)
or an HTTP response with a status code and a decoded JSON body.  Sending a
chat message is modelled by the Boolean `sendOk`: when `false`, every send
attempt raises.  A handler run is summarised by `RunResult`: the list of
webhook POST payloads, the list of send attempts in order, and whether an
exception escaped the handler body.
-/

namespace ArcRaiders

/-- JSON values as decoded by `resp.json()`. -/
inductive Json where
  | null : Json
  | bool : Bool → Json
  | num : Int → Json
  | str : String → Json
  | arr : List Json → Json
  | obj : List (String × Json) → Json

/-- Lookup of a key in the field list of a JSON object (Python `dict` access). -/
def lookupField : List (String × Json) → String → Option Json
  | [], _ => none
  | (k, v) :: rest, key => if k = key then some v else lookupField rest key

/-- Python truthiness of a JSON value (`if not reply_text`). -/
def Json.truthy : Json → Bool
  | .null => false
  | .bool b => b
  | .num n => n != 0
  | .str s => s != ""
  | .arr xs => !xs.isEmpty
  | .obj fs => !fs.isEmpty

/-- Whether a JSON value is a string. -/
def Json.isStr : Json → Bool
  | .str _ => true
  | _ => false

/-- Whether a JSON value is an object (a Python `dict`). -/
def Json.isObj : Json → Bool
  | .obj _ => true
  | _ => false

/-- Field list of a JSON object; empty for every non-object. -/
def payloadFields : Json → List (String × Json)
  | .obj fs => fs
  | _ => []

/-- Python `str.lower()` (ASCII case folding suffices for this program). -/
def pyLower (s : String) : String := String.mk (s.data.map Char.toLower)

/-- Python `str.strip()`: drop whitespace from both ends. -/
def pyStrip (s : String) : String :=
  String.mk (((s.data.dropWhile Char.isWhitespace).reverse.dropWhile
    Char.isWhitespace).reverse)

/-- Python `s.startswith(tok)`. -/
def pyStartsWith (s tok : String) : Bool := tok.data.isPrefixOf s.data

/-- Helper for substring search: does `need` occur contiguously in the list? -/
def occursIn (need : List Char) : List Char → Bool
  | [] => need.isEmpty
  | c :: t => need.isPrefixOf (c :: t) || occursIn need t

/-- Python `need in hay` on strings: contiguous substring test. -/
def containsSub (hay need : String) : Bool := occursIn need.data hay.data

/-- Fallback sent by `loot_bot.py` for an unrecognized response shape. -/
def lootUnexpectedFormatMsg : String := "⚠️ Unexpected loot response format from n8n."

/-- Fallback used by `loot_bot.py` when the reply field is absent. -/
def lootMissingReplyMsg : String := "⚠️ Loot system did not include a reply field."

/-- Fallback used by `loot_bot.py` on a `requests.RequestException`. -/
def lootNetworkErrorMsg : String := "⚠️ Error reaching loot system (network error)."

/-- Fallback used by `loot_bot.py` when the generic handler catches an error. -/
def lootProcessingErrorMsg : String := "⚠️ Error processing loot response."

/-- Fallback sent by `python-arc-bot.py` for an unrecognized response shape. -/
def arcUnexpectedFormatMsg : String := "⚠️ Loot service responded with an unexpected format."

/-- Fallback used by `python-arc-bot.py` when the reply field is absent or falsy. -/
def arcMissingReplyMsg : String := "⚠️ Loot service did not provide a reply field."

/-- Fallback used by `python-arc-bot.py` on a `requests.RequestException`. -/
def arcNetworkErrorMsg : String := "⚠️ Error talking to loot service. Try again in a bit."

/-- The hardcoded autocomplete catalog `LOOT_ITEMS` of `loot_bot.py`,
in source order, duplicates included. -/
def LOOT_ITEMS : List String := [
  "Leaper Pulse Unit",
  "Power Rod",
  "Rocketeer Driver",
  "Surveyor Vault",
  "Antiseptic",
  "Hornet Driver",
  "Syringe",
  "Wasp Driver",
  "Water Pump",
  "Snitch Scanner",
  "Leaper Pulse Unit",
  "Magnetic Accelerator",
  "Exodus Modules",
  "Adv. Electrical Components",
  "Humidifier",
  "Sensors",
  "Cooling Fan",
  "Wires",
  "Durable Cloth",
  "Steel Spring",
  "Scrap Alloy",
  "Rubber Parts",
  "Metal Parts",
  "Battery",
  "Light Bulb",
  "Electrical Components",
  "Accordion",
  "Alarm Clock",
  "ARC Coolant",
  "ARC Flex Rubber",
  "ARC Performance Steel",
  "ARC Synthetic Resin",
  "ARC Thermo Lining",
  "Bicycle Pump",
  "Broken Flashlight",
  "Broken Guidance System",
  "Broken Handcuffs",
  "Broken Handheld Radio",
  "Broken Taser",
  "Burned-out ARC Circuitry",
  "Camera Lens",
  "Candle Holder",
  "Coolant",
  "Cooling Coil",
  "Crumpled Plastic Bottle",
  "Damaged ARC Motion Core",
  "Damaged ARC Powercell",
  "Deflated Football",
  "Diving Goggles",
  "Dried-out ARC Resin",
  "Expired Respirator",
  "Flute",
  "Frying Pan",
  "Garlic Press",
  "Headphones",
  "Ice Cream Scooper",
  "Household Cleaner",
  "Impure ARC Coolant",
  "Industrial Charger",
  "Industrial Magnet",
  "Metal Brackets",
  "Number Plate",
  "Polluted Air Filter",
  "Radio",
  "Remote Control",
  "Ripped Safety Vest",
  "Rubber Pad",
  "Ruined Accordion",
  "Ruined Baton",
  "Ruined Handcuffs",
  "Ruined Parachute",
  "Ruined Riot Shield",
  "Ruined Tactical Vest",
  "Rusted Bolts",
  "Rusty ARC Steel",
  "Spotter Relay",
  "Spring Cushion",
  "Tattered ARC Lining",
  "Tattered Clothes",
  "Thermostat",
  "Torn Blanket",
  "Turbo Pump",
  "Water Filter"]

/-- The `loot_autocomplete` helper of `loot_bot.py`: case-insensitive
substring filter over `LOOT_ITEMS`, truncated to the first 25 matches
(the returned `Choice` objects carry the name both as label and value,
so the suggestion list is modelled by the name list). -/
def loot_autocomplete (current : String) : List String :=
  let currentLower := pyLower current
  (LOOT_ITEMS.filter (fun name => containsSub (pyLower name) currentLower)).take 25

/-- Outcome of the single `requests.post` call: a transport-level
`requests.RequestException`, or an HTTP response with a status code and the
decoded JSON body. -/
inductive WebhookOutcome where
  | transportError : WebhookOutcome
  | response : Nat → Json → WebhookOutcome

/-- Whether `r.raise_for_status()` raises: exactly the 4xx and 5xx codes. -/
def raisesForStatus (status : Nat) : Bool :=
  400 ≤ status && status < 600

/-- Observable effects of one handler invocation: the payloads POSTed to the
webhook, the chat-send attempts in order, and whether an exception escaped
the handler body. -/
structure RunResult where
  posts : List Json
  sent : List Json
  escaped : Bool

/-- The fields of a slash-command interaction used by `loot`:
`interaction.guild_id` (an optional integer, tested for truthiness),
`interaction.guild` (modelled by its optional name), `interaction.channel_id`,
`interaction.user.id` and `interaction.user.name`. -/
structure Interaction where
  guildId : Option Nat
  guildName : Option String
  channelId : Nat
  userId : Nat
  userName : String

/-- Value of the `guild_id` payload entry in `loot_bot.py`:
`str(interaction.guild_id) if interaction.guild_id else None`. -/
def optGuildId (i : Interaction) : Json :=
  match i.guildId with
  | some g => if g != 0 then Json.str (toString g) else Json.null
  | none => Json.null

/-- Value of the `guild_name` payload entry in `loot_bot.py`:
`interaction.guild.name if interaction.guild else None`. -/
def optGuildName (i : Interaction) : Json :=
  match i.guildName with
  | some n => Json.str n
  | none => Json.null

/-- The JSON payload built by the `loot` handler of `loot_bot.py`. -/
def slashPayload (i : Interaction) (item : String) : Json :=
  Json.obj [
    ("item", Json.str item),
    ("content", Json.str ("/loot " ++ item)),
    ("channel_id", Json.str (toString i.channelId)),
    ("author_id", Json.str (toString i.userId)),
    ("username", Json.str i.userName),
    ("guild_id", optGuildId i),
    ("guild_name", optGuildName i)]

/-- Control flow of the `loot` try block after a non-raising HTTP response:
either a `result` value reaches the final `send_message`, or the `else`
branch sends the unexpected-format message inside the try block. -/
inductive SlashStep where
  | reply : Json → SlashStep
  | unexpected : SlashStep

/-- Response unwrapping of `loot_bot.py` (lines 184-197).  `data[0].get` and
`item_json.get` raise `AttributeError` on non-dict values; that error is
caught by the generic `except Exception` branch, which substitutes
`lootProcessingErrorMsg` as the result. -/
def slashTryBody (data : Json) : SlashStep :=
  match data with
  | .arr (x :: _) =>
      match x with
      | .obj fs =>
          match (lookupField fs "json").getD x with
          | .obj gs => .reply ((lookupField gs "reply").getD (Json.str lootMissingReplyMsg))
          | _ => .reply (Json.str lootProcessingErrorMsg)
      | _ => .reply (Json.str lootProcessingErrorMsg)
  | .obj fs =>
      match (lookupField fs "json").getD (Json.obj fs) with
      | .obj gs => .reply ((lookupField gs "reply").getD (Json.str lootMissingReplyMsg))
      | _ => .reply (Json.str lootProcessingErrorMsg)
  | _ => .unexpected

/-- The `loot` slash-command handler of `loot_bot.py`.  The final
`interaction.response.send_message(result)` sits outside the try block, so
its failure escapes the handler; the unexpected-format send sits inside the
try block, so its failure is caught by `except Exception`, after which the
final send of `lootProcessingErrorMsg` is attempted and escapes. -/
def loot (i : Interaction) (item : String) (outcome : WebhookOutcome)
    (sendOk : Bool) : RunResult :=
  let payload := slashPayload i item
  match outcome with
  | .transportError =>
      { posts := [payload], sent := [Json.str lootNetworkErrorMsg], escaped := !sendOk }
  | .response status body =>
      if raisesForStatus status then
        { posts := [payload], sent := [Json.str lootNetworkErrorMsg], escaped := !sendOk }
      else
        match slashTryBody body with
        | .reply r => { posts := [payload], sent := [r], escaped := !sendOk }
        | .unexpected =>
            if sendOk then
              { posts := [payload], sent := [Json.str lootUnexpectedFormatMsg],
                escaped := false }
            else
              { posts := [payload],
                sent := [Json.str lootUnexpectedFormatMsg, Json.str lootProcessingErrorMsg],
                escaped := true }

/-- The fields of an inbound plain-text message used by `on_message`:
`message.author.bot`, `message.content`, `message.channel.id`,
`message.author.id` and `message.author.name`. -/
structure Message where
  authorBot : Bool
  content : String
  channelId : Nat
  authorId : Nat
  username : String

/-- The JSON payload built by `on_message` of `python-arc-bot.py` from the
stripped content. -/
def arcPayload (content : String) (m : Message) : Json :=
  Json.obj [
    ("content", Json.str content),
    ("channel_id", Json.str (toString m.channelId)),
    ("author_id", Json.str (toString m.authorId)),
    ("username", Json.str m.username)]

/-- Control flow of the `on_message` try block after a non-raising HTTP
response: a `reply_text` for the guarded final send, the unguarded
unexpected-format send, or an `AttributeError` from `item.get` on a
non-dict value, which only the `except RequestException` clause could catch
and therefore escapes the handler. -/
inductive ArcStep where
  | reply : Json → ArcStep
  | unexpected : ArcStep
  | attrError : ArcStep

/-- Response unwrapping of `python-arc-bot.py` (lines 63-74), including the
falsiness substitution `if not reply_text`. -/
def arcTryBody (data : Json) : ArcStep :=
  match data with
  | .arr (x :: _) =>
      match x with
      | .obj fs =>
          match (lookupField fs "json").getD x with
          | .obj gs =>
              let rt := (lookupField gs "reply").getD Json.null
              .reply (if rt.truthy then rt else Json.str arcMissingReplyMsg)
          | _ => .attrError
      | _ => .unexpected
  | .obj fs =>
      match (lookupField fs "json").getD (Json.obj fs) with
      | .obj gs =>
          let rt := (lookupField gs "reply").getD Json.null
          .reply (if rt.truthy then rt else Json.str arcMissingReplyMsg)
      | _ => .attrError
  | _ => .unexpected

/-- The `on_message` handler of `python-arc-bot.py`.  The final
`message.channel.send(reply_text)` is wrapped in its own
`try/except Exception`, so its failure never escapes; the unexpected-format
send happens inside the outer try block whose only clause catches
`requests.exceptions.RequestException`, so its failure escapes. -/
def on_message (m : Message) (outcome : WebhookOutcome) (sendOk : Bool) :
    RunResult :=
  if m.authorBot then { posts := [], sent := [], escaped := false }
  else
    let content := pyStrip m.content
    if !(pyStartsWith (pyLower content) "!loot-bot") then
      { posts := [], sent := [], escaped := false }
    else
      let payload := arcPayload content m
      match outcome with
      | .transportError =>
          { posts := [payload], sent := [Json.str arcNetworkErrorMsg], escaped := false }
      | .response status body =>
          if raisesForStatus status then
            { posts := [payload], sent := [Json.str arcNetworkErrorMsg], escaped := false }
          else
            match arcTryBody body with
            | .reply r => { posts := [payload], sent := [r], escaped := false }
            | .unexpected =>
                { posts := [payload], sent := [Json.str arcUnexpectedFormatMsg],
                  escaped := !sendOk }
            | .attrError => { posts := [payload], sent := [], escaped := true }

/-- Shape condition of the fallback branch shared by both handlers: the
decoded body is neither a non-empty list nor an object (the negation of the
two `isinstance` guards in `loot_bot.py`). -/
def unrecognizedShape : Json → Bool
  | .arr (_ :: _) => false
  | .obj _ => false
  | _ => true

/-- A sample triggering text-command message. -/
def sampleMsg : Message :=
  { authorBot := false, content := "!loot-bot water pump", channelId := 11,
    authorId := 22, username := "alice" }

/-- A sample message from an automated sender. -/
def sampleBotMsg : Message :=
  { authorBot := true, content := "!loot-bot water pump", channelId := 11,
    authorId := 33, username := "otherbot" }

/-- A sample message with whitespace ahead of the command token. -/
def sampleSpacedMsg : Message :=
  { authorBot := false, content := " !loot-bot water pump", channelId := 11,
    authorId := 22, username := "alice" }

/-- A sample non-command message. -/
def sampleHelloMsg : Message :=
  { authorBot := false, content := "hello", channelId := 11, authorId := 22,
    username := "alice" }

/-- A sample interaction issued inside a guild. -/
def sampleInt : Interaction :=
  { guildId := some 7, guildName := some "Raiders", channelId := 11,
    userId := 22, userName := "alice" }

/-- A sample interaction issued outside any guild (a direct message). -/
def sampleNoGuild : Interaction :=
  { guildId := none, guildName := none, channelId := 11, userId := 22,
    userName := "alice" }

/-- Claim C9: a message authored by an automated (bot) sender never makes a
webhook HTTP call, regardless of its content. -/
theorem C9_bot_author_no_webhook (m : Message) (outcome : WebhookOutcome)
    (sendOk : Bool) (hb : m.authorBot = true) :
    (on_message m outcome sendOk).posts = [] := by
  simp [on_message, hb]

theorem C9_witness :
    sampleBotMsg.authorBot = true ∧
    (on_message sampleBotMsg WebhookOutcome.transportError true).posts = [] :=
  ⟨rfl, C9_bot_author_no_webhook sampleBotMsg WebhookOutcome.transportError true rfl⟩

/-- Claim C8, counterexample: the content of `sampleSpacedMsg` does not start
case-insensitively with the command token, because of its leading blank, yet
the handler strips the content first and does call the webhook. -/
theorem C8_counterexample :
    sampleSpacedMsg.content = " !loot-bot water pump" ∧
    sampleSpacedMsg.authorBot = false ∧
    pyStartsWith (pyLower sampleSpacedMsg.content) "!loot-bot" = false ∧
    (on_message sampleSpacedMsg
      (WebhookOutcome.response 200 (Json.obj [("reply", Json.str "ok")]))
      true).posts.length = 1 :=
  ⟨rfl, rfl, by decide, rfl⟩

/-- Claim C8 (amended): for every inbound plain-text message whose content,
after stripping leading and trailing whitespace, does not start
case-insensitively with the fixed token, the text-variant handler makes no
webhook call and sends no reply. -/
theorem C8_amended (m : Message) (outcome : WebhookOutcome) (sendOk : Bool)
    (h : pyStartsWith (pyLower (pyStrip m.content)) "!loot-bot" = false) :
    (on_message m outcome sendOk).posts = [] ∧
    (on_message m outcome sendOk).sent = [] ∧
    (on_message m outcome sendOk).escaped = false := by
  cases hb : m.authorBot <;> simp [on_message, hb, h]

theorem C8_witness :
    pyStartsWith (pyLower (pyStrip sampleHelloMsg.content)) "!loot-bot" = false ∧
    ((on_message sampleHelloMsg WebhookOutcome.transportError true).posts = [] ∧
     (on_message sampleHelloMsg WebhookOutcome.transportError true).sent = [] ∧
     (on_message sampleHelloMsg WebhookOutcome.transportError true).escaped = false) :=
  ⟨by decide, C8_amended sampleHelloMsg WebhookOutcome.transportError true (by decide)⟩

/-- Claim C4: when the decoded webhook body is neither a non-empty list nor
an object, each variant sends its fixed unexpected-format fallback and no
exception escapes. -/
theorem C4_unrecognized_shape_fallback (j : Json)
    (hj : unrecognizedShape j = true) (status : Nat)
    (hs : raisesForStatus status = false) (i : Interaction) (it : String)
    (m : Message) (hb : m.authorBot = false)
    (hp : pyStartsWith (pyLower (pyStrip m.content)) "!loot-bot" = true) :
    (loot i it (WebhookOutcome.response status j) true).sent
      = [Json.str lootUnexpectedFormatMsg] ∧
    (loot i it (WebhookOutcome.response status j) true).escaped = false ∧
    (on_message m (WebhookOutcome.response status j) true).sent
      = [Json.str arcUnexpectedFormatMsg] ∧
    (on_message m (WebhookOutcome.response status j) true).escaped = false := by
  have hslash : slashTryBody j = SlashStep.unexpected := by
    cases j with
    | null => rfl
    | bool b => rfl
    | num n => rfl
    | str s => rfl
    | arr xs =>
        cases xs with
        | nil => rfl
        | cons x t => simp [unrecognizedShape] at hj
    | obj fs => simp [unrecognizedShape] at hj
  have harc : arcTryBody j = ArcStep.unexpected := by
    cases j with
    | null => rfl
    | bool b => rfl
    | num n => rfl
    | str s => rfl
    | arr xs =>
        cases xs with
        | nil => rfl
        | cons x t => simp [unrecognizedShape] at hj
    | obj fs => simp [unrecognizedShape] at hj
  refine ⟨?_, ?_, ?_, ?_⟩ <;> simp [loot, on_message, hb, hp, hs, hslash, harc]

theorem C4_witness :
    unrecognizedShape (Json.num 5) = true ∧
    ((loot sampleInt "Wires" (WebhookOutcome.response 200 (Json.num 5)) true).sent
       = [Json.str lootUnexpectedFormatMsg] ∧
     (loot sampleInt "Wires" (WebhookOutcome.response 200 (Json.num 5)) true).escaped = false ∧
     (on_message sampleMsg (WebhookOutcome.response 200 (Json.num 5)) true).sent
       = [Json.str arcUnexpectedFormatMsg] ∧
     (on_message sampleMsg (WebhookOutcome.response 200 (Json.num 5)) true).escaped = false) :=
  ⟨rfl, C4_unrecognized_shape_fallback (Json.num 5) rfl 200 rfl sampleInt "Wires"
    sampleMsg rfl (by decide)⟩

/-- Claim C10: on a non-empty list body whose first element is not an object,
the text variant sends its unexpected-format fallback, while the slash
variant hits an `AttributeError` in the list branch, lands in the generic
`except Exception` handler, and sends the distinct message
`lootProcessingErrorMsg`, which differs from every fallback the spec names. -/
theorem C10_list_nondict_divergence (j : Json) (hj : j.isObj = false)
    (js : List Json) (status : Nat) (hs : raisesForStatus status = false)
    (i : Interaction) (it : String) (m : Message) (hb : m.authorBot = false)
    (hp : pyStartsWith (pyLower (pyStrip m.content)) "!loot-bot" = true) :
    (loot i it (WebhookOutcome.response status (Json.arr (j :: js))) true).sent
      = [Json.str lootProcessingErrorMsg] ∧
    (loot i it (WebhookOutcome.response status (Json.arr (j :: js))) true).escaped = false ∧
    (on_message m (WebhookOutcome.response status (Json.arr (j :: js))) true).sent
      = [Json.str arcUnexpectedFormatMsg] ∧
    (on_message m (WebhookOutcome.response status (Json.arr (j :: js))) true).escaped = false ∧
    lootProcessingErrorMsg ≠ lootUnexpectedFormatMsg ∧
    lootProcessingErrorMsg ≠ lootMissingReplyMsg ∧
    lootProcessingErrorMsg ≠ lootNetworkErrorMsg ∧
    lootProcessingErrorMsg ≠ arcUnexpectedFormatMsg := by
  have hslash : slashTryBody (Json.arr (j :: js))
      = SlashStep.reply (Json.str lootProcessingErrorMsg) := by
    cases j with
    | null => rfl
    | bool b => rfl
    | num n => rfl
    | str s => rfl
    | arr xs => rfl
    | obj fs => simp [Json.isObj] at hj
  have harc : arcTryBody (Json.arr (j :: js)) = ArcStep.unexpected := by
    cases j with
    | null => rfl
    | bool b => rfl
    | num n => rfl
    | str s => rfl
    | arr xs => rfl
    | obj fs => simp [Json.isObj] at hj
  refine ⟨?_, ?_, ?_, ?_, by decide, by decide, by decide, by decide⟩ <;>
    simp [loot, on_message, hb, hp, hs, hslash, harc]

theorem C10_witness :
    (Json.num 5).isObj = false ∧
    ((loot sampleInt "Wires"
        (WebhookOutcome.response 200 (Json.arr [Json.num 5])) true).sent
       = [Json.str lootProcessingErrorMsg] ∧
     (loot sampleInt "Wires"
        (WebhookOutcome.response 200 (Json.arr [Json.num 5])) true).escaped = false ∧
     (on_message sampleMsg
        (WebhookOutcome.response 200 (Json.arr [Json.num 5])) true).sent
       = [Json.str arcUnexpectedFormatMsg] ∧
     (on_message sampleMsg
        (WebhookOutcome.response 200 (Json.arr [Json.num 5])) true).escaped = false ∧
     lootProcessingErrorMsg ≠ lootUnexpectedFormatMsg ∧
     lootProcessingErrorMsg ≠ lootMissingReplyMsg ∧
     lootProcessingErrorMsg ≠ lootNetworkErrorMsg ∧
     lootProcessingErrorMsg ≠ arcUnexpectedFormatMsg) :=
  ⟨rfl, C10_list_nondict_divergence (Json.num 5) rfl [] 200 rfl sampleInt "Wires"
    sampleMsg rfl (by decide)⟩

/-- Claim C5, counterexample: a 300 status is not 2xx, yet
`raise_for_status` does not fire below 400, so the slash handler processes
the body normally and sends its reply value instead of the network-error
fallback. -/
theorem C5_counterexample :
    raisesForStatus 300 = false ∧
    ¬ (200 ≤ (300 : Nat) ∧ (300 : Nat) < 300) ∧
    (loot sampleInt "Wires"
      (WebhookOutcome.response 300 (Json.obj [("reply", Json.str "pong")]))
      true).sent = [Json.str "pong"] ∧
    "pong" ≠ lootNetworkErrorMsg :=
  ⟨rfl, by decide, rfl, by decide⟩

/-- Claim C5 (amended): when the POST fails at the transport level or the
response status lies in 400-599 (the exact range on which
`raise_for_status` raises), each variant sends its fixed network-error
fallback, makes exactly one POST attempt, and lets no exception escape,
provided the reply send itself succeeds; statuses below 400 are processed
as normal responses. -/
theorem C5_network_error_fallback (i : Interaction) (it : String)
    (m : Message) (hb : m.authorBot = false)
    (hp : pyStartsWith (pyLower (pyStrip m.content)) "!loot-bot" = true)
    (outcome : WebhookOutcome)
    (hout : outcome = WebhookOutcome.transportError ∨
      ∃ status body, outcome = WebhookOutcome.response status body ∧
        raisesForStatus status = true) :
    ((loot i it outcome true).posts.length = 1 ∧
     (loot i it outcome true).sent = [Json.str lootNetworkErrorMsg] ∧
     (loot i it outcome true).escaped = false) ∧
    ((on_message m outcome true).posts.length = 1 ∧
     (on_message m outcome true).sent = [Json.str arcNetworkErrorMsg] ∧
     (on_message m outcome true).escaped = false) := by
  rcases hout with h | ⟨status, body, h, hs⟩
  · subst h
    simp [loot, on_message, hb, hp]
  · subst h
    simp [loot, on_message, hb, hp, hs]

theorem C5_witness :
    (WebhookOutcome.transportError = WebhookOutcome.transportError ∨
      ∃ status body,
        WebhookOutcome.transportError = WebhookOutcome.response status body ∧
        raisesForStatus status = true) ∧
    (((loot sampleInt "Wires" WebhookOutcome.transportError true).posts.length = 1 ∧
      (loot sampleInt "Wires" WebhookOutcome.transportError true).sent
        = [Json.str lootNetworkErrorMsg] ∧
      (loot sampleInt "Wires" WebhookOutcome.transportError true).escaped = false) ∧
     ((on_message sampleMsg WebhookOutcome.transportError true).posts.length = 1 ∧
      (on_message sampleMsg WebhookOutcome.transportError true).sent
        = [Json.str arcNetworkErrorMsg] ∧
      (on_message sampleMsg WebhookOutcome.transportError true).escaped = false)) :=
  ⟨Or.inl rfl,
   C5_network_error_fallback sampleInt "Wires" sampleMsg rfl (by decide)
     WebhookOutcome.transportError (Or.inl rfl)⟩

/-- Claim C6, counterexample: in the slash variant the final
`interaction.response.send_message(result)` lies outside every try block,
so when the send fails the exception escapes the handler instead of being
logged and swallowed. -/
theorem C6_counterexample :
    (loot sampleInt "Wires"
      (WebhookOutcome.response 200 (Json.obj [("reply", Json.str "hi")]))
      false).sent = [Json.str "hi"] ∧
    (loot sampleInt "Wires"
      (WebhookOutcome.response 200 (Json.obj [("reply", Json.str "hi")]))
      false).escaped = true :=
  ⟨rfl, rfl⟩

/-- Claim C6 (amended): only the text variant guards the final reply send
with its own `try/except`, so its failures are swallowed on the normal and
network-error paths; the text variant leaves its unexpected-format send
unguarded, and the slash variant leaves every send unguarded, so those
failures propagate out of the handler. -/
theorem C6_send_failure_policy (m : Message) (hb : m.authorBot = false)
    (hp : pyStartsWith (pyLower (pyStrip m.content)) "!loot-bot" = true)
    (status : Nat) (hs : raisesForStatus status = false) (body r : Json)
    (i : Interaction) (it : String) (outcome : WebhookOutcome) :
    (on_message m WebhookOutcome.transportError false).escaped = false ∧
    (arcTryBody body = ArcStep.reply r →
      (on_message m (WebhookOutcome.response status body) false).escaped = false ∧
      (on_message m (WebhookOutcome.response status body) false).sent = [r]) ∧
    (arcTryBody body = ArcStep.unexpected →
      (on_message m (WebhookOutcome.response status body) false).escaped = true) ∧
    (loot i it outcome false).escaped = true := by
  refine ⟨by simp [on_message, hb, hp], ?_, ?_, ?_⟩
  · intro h
    constructor <;> simp [on_message, hb, hp, hs, h]
  · intro h
    simp [on_message, hb, hp, hs, h]
  · cases outcome with
    | transportError => rfl
    | response status body =>
        by_cases hraise : raisesForStatus status = true
        · simp [loot, hraise]
        · rw [Bool.not_eq_true] at hraise
          cases hstep : slashTryBody body <;> simp [loot, hraise, hstep]

theorem C6_witness :
    arcTryBody (Json.obj [("reply", Json.str "hi")])
      = ArcStep.reply (Json.str "hi") ∧
    ((on_message sampleMsg WebhookOutcome.transportError false).escaped = false ∧
     (arcTryBody (Json.obj [("reply", Json.str "hi")])
        = ArcStep.reply (Json.str "hi") →
       (on_message sampleMsg
         (WebhookOutcome.response 200 (Json.obj [("reply", Json.str "hi")]))
         false).escaped = false ∧
       (on_message sampleMsg
         (WebhookOutcome.response 200 (Json.obj [("reply", Json.str "hi")]))
         false).sent = [Json.str "hi"]) ∧
     (arcTryBody (Json.obj [("reply", Json.str "hi")]) = ArcStep.unexpected →
       (on_message sampleMsg
         (WebhookOutcome.response 200 (Json.obj [("reply", Json.str "hi")]))
         false).escaped = true) ∧
     (loot sampleInt "Wires" WebhookOutcome.transportError false).escaped = true) :=
  ⟨rfl, C6_send_failure_policy sampleMsg rfl (by decide) 200 rfl
    (Json.obj [("reply", Json.str "hi")]) (Json.str "hi") sampleInt "Wires"
    WebhookOutcome.transportError⟩

/-- Claim C7, counterexample: a slash invocation outside any guild still
posts a body whose `guild_id` entry is present with JSON `null`, which is
not a string. -/
theorem C7_counterexample :
    (loot sampleNoGuild "Wires" WebhookOutcome.transportError true).posts
      = [slashPayload sampleNoGuild "Wires"] ∧
    ("guild_id", Json.null) ∈ payloadFields (slashPayload sampleNoGuild "Wires") ∧
    Json.null.isStr = false := by
  refine ⟨rfl, ?_, rfl⟩
  simp [slashPayload, payloadFields, optGuildId, sampleNoGuild]

/-- Claim C7 (amended): every invocation POSTs exactly its payload; the text
variant body has exactly the keys content, channel_id, author_id, username,
all with string values; the slash variant body always has the keys item,
content, channel_id, author_id, username, guild_id, guild_name, every value
a string except that guild_id and guild_name carry JSON null when the
interaction has no (truthy) guild. -/
theorem C7_payload_shape (i : Interaction) (it : String)
    (outcome : WebhookOutcome) (sendOk : Bool) (m : Message)
    (hb : m.authorBot = false)
    (hp : pyStartsWith (pyLower (pyStrip m.content)) "!loot-bot" = true) :
    (loot i it outcome sendOk).posts = [slashPayload i it] ∧
    (payloadFields (slashPayload i it)).map Prod.fst
      = ["item", "content", "channel_id", "author_id", "username",
         "guild_id", "guild_name"] ∧
    (∀ kv ∈ payloadFields (slashPayload i it),
      kv.2.isStr = true ∨
        (kv.2 = Json.null ∧ (kv.1 = "guild_id" ∨ kv.1 = "guild_name"))) ∧
    (on_message m outcome sendOk).posts = [arcPayload (pyStrip m.content) m] ∧
    (payloadFields (arcPayload (pyStrip m.content) m)).map Prod.fst
      = ["content", "channel_id", "author_id", "username"] ∧
    (∀ kv ∈ payloadFields (arcPayload (pyStrip m.content) m),
      kv.2.isStr = true) := by
  have hguildId : (optGuildId i).isStr = true ∨ optGuildId i = Json.null := by
    unfold optGuildId
    cases i.guildId with
    | none => exact Or.inr rfl
    | some g =>
        by_cases hg : (g != 0) = true
        · simp [hg, Json.isStr]
        · rw [Bool.not_eq_true] at hg
          simp [hg]
  have hguildName : (optGuildName i).isStr = true ∨ optGuildName i = Json.null := by
    unfold optGuildName
    cases i.guildName with
    | none => exact Or.inr rfl
    | some n => exact Or.inl rfl
  refine ⟨?_, rfl, ?_, ?_, rfl, ?_⟩
  · cases outcome with
    | transportError => rfl
    | response status body =>
        by_cases hraise : raisesForStatus status = true
        · simp [loot, hraise]
        · rw [Bool.not_eq_true] at hraise
          cases hstep : slashTryBody body with
          | reply r => simp [loot, hraise, hstep]
          | unexpected => cases sendOk <;> simp [loot, hraise, hstep]
  · intro kv hkv
    simp only [slashPayload, payloadFields, List.mem_cons,
      List.not_mem_nil, or_false] at hkv
    rcases hkv with h | h | h | h | h | h | h <;> subst h
    · exact Or.inl rfl
    · exact Or.inl rfl
    · exact Or.inl rfl
    · exact Or.inl rfl
    · exact Or.inl rfl
    · rcases hguildId with h | h
      · exact Or.inl h
      · exact Or.inr ⟨h, Or.inl rfl⟩
    · rcases hguildName with h | h
      · exact Or.inl h
      · exact Or.inr ⟨h, Or.inr rfl⟩
  · cases outcome with
    | transportError => simp [on_message, hb, hp]
    | response status body =>
        by_cases hraise : raisesForStatus status = true
        · simp [on_message, hb, hp, hraise]
        · rw [Bool.not_eq_true] at hraise
          cases hstep : arcTryBody body <;>
            simp [on_message, hb, hp, hraise, hstep]
  · intro kv hkv
    simp only [arcPayload, payloadFields, List.mem_cons,
      List.not_mem_nil, or_false] at hkv
    rcases hkv with h | h | h | h <;> subst h <;> rfl

theorem C7_witness :
    sampleMsg.authorBot = false ∧
    ((loot sampleInt "Wires" WebhookOutcome.transportError true).posts
       = [slashPayload sampleInt "Wires"] ∧
     (payloadFields (slashPayload sampleInt "Wires")).map Prod.fst
       = ["item", "content", "channel_id", "author_id", "username",
          "guild_id", "guild_name"] ∧
     (∀ kv ∈ payloadFields (slashPayload sampleInt "Wires"),
       kv.2.isStr = true ∨
         (kv.2 = Json.null ∧ (kv.1 = "guild_id" ∨ kv.1 = "guild_name"))) ∧
     (on_message sampleMsg WebhookOutcome.transportError true).posts
       = [arcPayload (pyStrip sampleMsg.content) sampleMsg] ∧
     (payloadFields (arcPayload (pyStrip sampleMsg.content) sampleMsg)).map
       Prod.fst = ["content", "channel_id", "author_id", "username"] ∧
     (∀ kv ∈ payloadFields (arcPayload (pyStrip sampleMsg.content) sampleMsg),
       kv.2.isStr = true)) :=
  ⟨rfl, C7_payload_shape sampleInt "Wires" WebhookOutcome.transportError true
    sampleMsg rfl (by decide)⟩

/-- Claim C1, counterexample: the in-particular part fails at Y = "": on the
single-object response with reply "", the text variant substitutes its
missing-reply fallback because `if not reply_text` treats the empty string
as missing. -/
theorem C1_counterexample :
    (on_message sampleMsg
      (WebhookOutcome.response 200 (Json.obj [("reply", Json.str "")]))
      true).sent = [Json.str arcMissingReplyMsg] ∧
    arcMissingReplyMsg ≠ "" :=
  ⟨rfl, by decide⟩

/-- Claim C1 (amended): on a single-object response both handlers first
unwrap a `json` field when present and read `reply` from the unwrapped
object.  When `json` is absent: a present reply value y is sent verbatim by
the slash variant, and by the text variant when y is non-empty, the text
variant substituting its missing-reply fallback for the empty string; when
`reply` is also absent each variant sends its missing-reply fallback.  When
`json` holds an object, the reply is read from that object. -/
theorem C1_single_object_reply (i : Interaction) (it : String) (m : Message)
    (hb : m.authorBot = false)
    (hp : pyStartsWith (pyLower (pyStrip m.content)) "!loot-bot" = true)
    (fs gs : List (String × Json)) (y : String) :
    (lookupField fs "json" = none → lookupField fs "reply" = some (Json.str y) →
      (loot i it (WebhookOutcome.response 200 (Json.obj fs)) true).sent
        = [Json.str y]) ∧
    (lookupField fs "json" = none → lookupField fs "reply" = some (Json.str y) →
      y ≠ "" →
      (on_message m (WebhookOutcome.response 200 (Json.obj fs)) true).sent
        = [Json.str y]) ∧
    (lookupField fs "json" = none →
      lookupField fs "reply" = some (Json.str "") →
      (on_message m (WebhookOutcome.response 200 (Json.obj fs)) true).sent
        = [Json.str arcMissingReplyMsg]) ∧
    (lookupField fs "json" = none → lookupField fs "reply" = none →
      (loot i it (WebhookOutcome.response 200 (Json.obj fs)) true).sent
          = [Json.str lootMissingReplyMsg] ∧
      (on_message m (WebhookOutcome.response 200 (Json.obj fs)) true).sent
          = [Json.str arcMissingReplyMsg]) ∧
    (lookupField fs "json" = some (Json.obj gs) →
      lookupField gs "reply" = some (Json.str y) → y ≠ "" →
      (loot i it (WebhookOutcome.response 200 (Json.obj fs)) true).sent
          = [Json.str y] ∧
      (on_message m (WebhookOutcome.response 200 (Json.obj fs)) true).sent
          = [Json.str y]) := by
  have h200 : raisesForStatus 200 = false := rfl
  refine ⟨?_, ?_, ?_, ?_, ?_⟩
  · intro hj hr
    simp [loot, h200, slashTryBody, hj, hr]
  · intro hj hr hy
    have hty : (Json.str y).truthy = true := by
      simp [Json.truthy, bne_iff_ne, hy]
    simp [on_message, hb, hp, h200, arcTryBody, hj, hr, hty]
  · intro hj hr
    simp [on_message, hb, hp, h200, arcTryBody, hj, hr, Json.truthy]
  · intro hj hr
    constructor
    · simp [loot, h200, slashTryBody, hj, hr]
    · simp [on_message, hb, hp, h200, arcTryBody, hj, hr, Json.truthy]
  · intro hj hr hy
    have hty : (Json.str y).truthy = true := by
      simp [Json.truthy, bne_iff_ne, hy]
    constructor
    · simp [loot, h200, slashTryBody, hj, hr]
    · simp [on_message, hb, hp, h200, arcTryBody, hj, hr, hty]

theorem C1_witness :
    sampleMsg.authorBot = false ∧
    ((lookupField [("reply", Json.str "pong")] "json" = none →
      lookupField [("reply", Json.str "pong")] "reply" = some (Json.str "pong") →
      (loot sampleInt "Wires"
        (WebhookOutcome.response 200 (Json.obj [("reply", Json.str "pong")]))
        true).sent = [Json.str "pong"]) ∧
     (lookupField [("reply", Json.str "pong")] "json" = none →
      lookupField [("reply", Json.str "pong")] "reply" = some (Json.str "pong") →
      "pong" ≠ "" →
      (on_message sampleMsg
        (WebhookOutcome.response 200 (Json.obj [("reply", Json.str "pong")]))
        true).sent = [Json.str "pong"]) ∧
     (lookupField [("reply", Json.str "pong")] "json" = none →
      lookupField [("reply", Json.str "pong")] "reply" = some (Json.str "") →
      (on_message sampleMsg
        (WebhookOutcome.response 200 (Json.obj [("reply", Json.str "pong")]))
        true).sent = [Json.str arcMissingReplyMsg]) ∧
     (lookupField [("reply", Json.str "pong")] "json" = none →
      lookupField [("reply", Json.str "pong")] "reply" = none →
      (loot sampleInt "Wires"
        (WebhookOutcome.response 200 (Json.obj [("reply", Json.str "pong")]))
        true).sent = [Json.str lootMissingReplyMsg] ∧
      (on_message sampleMsg
        (WebhookOutcome.response 200 (Json.obj [("reply", Json.str "pong")]))
        true).sent = [Json.str arcMissingReplyMsg]) ∧
     (lookupField [("reply", Json.str "pong")] "json"
        = some (Json.obj [("reply", Json.str "pong")]) →
      lookupField [("reply", Json.str "pong")] "reply" = some (Json.str "pong") →
      "pong" ≠ "" →
      (loot sampleInt "Wires"
        (WebhookOutcome.response 200 (Json.obj [("reply", Json.str "pong")]))
        true).sent = [Json.str "pong"] ∧
      (on_message sampleMsg
        (WebhookOutcome.response 200 (Json.obj [("reply", Json.str "pong")]))
        true).sent = [Json.str "pong"])) :=
  ⟨rfl, C1_single_object_reply sampleInt "Wires" sampleMsg rfl (by decide)
    [("reply", Json.str "pong")] [("reply", Json.str "pong")] "pong"⟩

/-- Claim C2, counterexample: the claim fails at X = "": on the wrapped
one-element list response carrying reply "", the text variant substitutes
its missing-reply fallback instead of sending "". -/
theorem C2_counterexample :
    (on_message sampleMsg
      (WebhookOutcome.response 200
        (Json.arr [Json.obj [("json", Json.obj [("reply", Json.str "")])]]))
      true).sent = [Json.str arcMissingReplyMsg] ∧
    arcMissingReplyMsg ≠ "" :=
  ⟨rfl, by decide⟩

/-- Claim C2 (amended): on the one-element list response wrapping reply X
through its `json` field, the slash variant sends exactly X for every
string X, and the text variant sends exactly X for every non-empty X,
substituting its missing-reply fallback when X is the empty string. -/
theorem C2_wrapped_list_reply (x : String) (i : Interaction) (it : String)
    (m : Message) (hb : m.authorBot = false)
    (hp : pyStartsWith (pyLower (pyStrip m.content)) "!loot-bot" = true) :
    (loot i it
      (WebhookOutcome.response 200
        (Json.arr [Json.obj [("json", Json.obj [("reply", Json.str x)])]]))
      true).sent = [Json.str x] ∧
    (x ≠ "" →
      (on_message m
        (WebhookOutcome.response 200
          (Json.arr [Json.obj [("json", Json.obj [("reply", Json.str x)])]]))
        true).sent = [Json.str x]) ∧
    (x = "" →
      (on_message m
        (WebhookOutcome.response 200
          (Json.arr [Json.obj [("json", Json.obj [("reply", Json.str x)])]]))
        true).sent = [Json.str arcMissingReplyMsg]) := by
  have h200 : raisesForStatus 200 = false := rfl
  refine ⟨rfl, ?_, ?_⟩
  · intro hx
    have hty : (Json.str x).truthy = true := by
      simp [Json.truthy, bne_iff_ne, hx]
    simp [on_message, hb, hp, h200, arcTryBody, lookupField, hty]
  · intro hx
    subst hx
    simp [on_message, hb, hp, h200, arcTryBody, lookupField, Json.truthy]

theorem C2_witness :
    sampleMsg.authorBot = false ∧
    ((loot sampleInt "Wires"
       (WebhookOutcome.response 200
         (Json.arr [Json.obj [("json", Json.obj [("reply", Json.str "pong")])]]))
       true).sent = [Json.str "pong"] ∧
     ("pong" ≠ "" →
       (on_message sampleMsg
         (WebhookOutcome.response 200
           (Json.arr [Json.obj [("json", Json.obj [("reply", Json.str "pong")])]]))
         true).sent = [Json.str "pong"]) ∧
     ("pong" = "" →
       (on_message sampleMsg
         (WebhookOutcome.response 200
           (Json.arr [Json.obj [("json", Json.obj [("reply", Json.str "pong")])]]))
         true).sent = [Json.str arcMissingReplyMsg])) :=
  ⟨rfl, C2_wrapped_list_reply "pong" sampleInt "Wires" sampleMsg rfl (by decide)⟩

/-- Claim C3, counterexample: the empty query matches every catalog entry
case-insensitively, but the result is truncated to 25 suggestions, so the
matching entry "Water Filter" does not appear and the claimed equivalence
fails. -/
theorem C3_counterexample :
    "Water Filter" ∈ LOOT_ITEMS ∧
    containsSub (pyLower "Water Filter") (pyLower "") = true ∧
    "Water Filter" ∉ loot_autocomplete "" := by
  refine ⟨by decide, rfl, by decide⟩

/-- Claim C3 (amended): the autocomplete result never exceeds 25 entries;
every returned entry is a case-insensitive substring match of the query;
and whenever at most 25 catalog entries match, a catalog entry appears in
the result exactly when the lowercased query occurs in its lowercased
name. -/
theorem C3_autocomplete_matches (s e : String) (he : e ∈ LOOT_ITEMS) :
    (loot_autocomplete s).length ≤ 25 ∧
    (e ∈ loot_autocomplete s → containsSub (pyLower e) (pyLower s) = true) ∧
    ((LOOT_ITEMS.filter
        (fun name => containsSub (pyLower name) (pyLower s))).length ≤ 25 →
      (e ∈ loot_autocomplete s ↔ containsSub (pyLower e) (pyLower s) = true)) := by
  refine ⟨?_, ?_, ?_⟩
  · simp only [loot_autocomplete]
    rw [List.length_take]
    exact inf_le_left
  · intro hmem
    simp only [loot_autocomplete] at hmem
    exact (List.mem_filter.mp (List.mem_of_mem_take hmem)).2
  · intro hlen
    simp only [loot_autocomplete]
    rw [List.take_of_length_le hlen, List.mem_filter]
    simp [he]

theorem C3_witness :
    "Turbo Pump" ∈ LOOT_ITEMS ∧
    ((loot_autocomplete "turbo").length ≤ 25 ∧
     ("Turbo Pump" ∈ loot_autocomplete "turbo" →
       containsSub (pyLower "Turbo Pump") (pyLower "turbo") = true) ∧
     ((LOOT_ITEMS.filter
         (fun name => containsSub (pyLower name) (pyLower "turbo"))).length ≤ 25 →
       ("Turbo Pump" ∈ loot_autocomplete "turbo" ↔
         containsSub (pyLower "Turbo Pump") (pyLower "turbo") = true))) :=
  ⟨by decide, C3_autocomplete_matches "turbo" "Turbo Pump" (by decide)⟩

end ArcRaiders

